import Mathlib

/-!
Verification development for `src/cpp/compiler_detector.cpp` of the cpkg
repository, together with a model of the ABI-compatibility / build-cache
subsystem that the specification designs (that subsystem has no code under
`src/`; its definitions below are modelled from the spec and marked as such).

The C++ file is effectful: it spawns subprocesses, touches the filesystem and
writes to static buffers.  We embed it shallowly: the outside world is a
`SysEnv` record of (deterministic) collaborator functions, a spawn that may
throw a `std::exception` is `Except Unit`, and the build functions return the
ordered trace of subprocess commands they issued alongside their return value.
-/

set_option maxHeartbeats 1000000

namespace Cpkg

/-- An argv-style command line, as passed to `subprocess::run`. -/
abbrev Cmd := List String

/-- Result of a completed subprocess: exit status and captured output streams
(`returncode`, `cout`, `cerr` in `subprocess.hpp`). -/
structure RunResult where
  returncode : Int
  cout : String
  cerr : String
deriving DecidableEq

/-- The external world the C++ file calls into: process spawning (which may
throw a `std::exception`, modelled as `.error ()`; with `check = false`, the
default of the subprocess library used, a nonzero exit status does not throw),
`std::filesystem::create_directories`, `std::filesystem::temp_directory_path`,
and `std::thread::hardware_concurrency`. -/
structure SysEnv where
  run : Cmd → Except Unit RunResult
  create_directories : String → Except Unit Unit
  temp_directory_path : String
  hardware_concurrency : Nat

namespace CompilerDetector

/-- `CompilerDetector::CompilerType`. -/
inductive CompilerType
  | GCC
  | Clang
  | MSVC
  | Unknown
deriving DecidableEq

/-- `CompilerDetector::CompilerInfo`.  In the C++ struct the four `std::string`
fields are default-constructed to the empty string; `type` is assigned in every
branch of `detect_system_compiler`. -/
structure CompilerInfo where
  type : CompilerType
  version : String
  path : String
  target_triple : String
  stdlib : String
deriving DecidableEq

/-- `CompilerDetector::test_compiler`: runs `<compiler> --version` with
`check = false` and reports whether it exited with status 0; any thrown
exception is swallowed (`catch (...)`) and yields `false`. -/
def test_compiler (env : SysEnv) (compiler : String) : Bool :=
  match env.run [compiler, "--version"] with
  | .ok r => r.returncode == 0
  | .error _ => false

/-- `CompilerDetector::extract_version_from_output`: `output.find(" ")` then
`output.substr(0, pos)`, i.e. the characters strictly before the first space;
`"unknown"` when the output contains no space. -/
def extract_version_from_output (output : String) : String :=
  match output.toList.findIdx? (· = ' ') with
  | some pos => String.mk (output.toList.take pos)
  | none => "unknown"

/-- `CompilerDetector::get_gcc_version`: reruns `g++ --version` and extracts
the version token from its standard output. -/
def get_gcc_version (env : SysEnv) : Except Unit String :=
  (env.run ["g++", "--version"]).map fun r => extract_version_from_output r.cout

/-- `CompilerDetector::get_clang_version`. -/
def get_clang_version (env : SysEnv) : Except Unit String :=
  (env.run ["clang++", "--version"]).map fun r => extract_version_from_output r.cout

/-- `CompilerDetector::get_msvc_version`. -/
def get_msvc_version (env : SysEnv) : Except Unit String :=
  (env.run ["cl.exe", "/?"]).map fun r => extract_version_from_output r.cout

/-- `CompilerDetector::find_executable`: the source is "simplified" and just
returns the name it was given. -/
def find_executable (name : String) : String := name

/-- `CompilerDetector::detect_system_compiler`: probes `g++`, `clang++`,
`cl.exe` in that order and fills in the record of the first probe that exits
with status 0; otherwise leaves the default-constructed strings empty and sets
`type` to `Unknown`. -/
def detect_system_compiler (env : SysEnv) : Except Unit CompilerInfo :=
  if test_compiler env "g++" then
    (get_gcc_version env).map fun v =>
      { type := .GCC, version := v, path := find_executable "g++",
        target_triple := "", stdlib := "libstdc++" }
  else if test_compiler env "clang++" then
    (get_clang_version env).map fun v =>
      { type := .Clang, version := v, path := find_executable "clang++",
        target_triple := "", stdlib := "libc++" }
  else if test_compiler env "cl.exe" then
    (get_msvc_version env).map fun v =>
      { type := .MSVC, version := v, path := find_executable "cl.exe",
        target_triple := "", stdlib := "msvc_stl" }
  else
    .ok { type := .Unknown, version := "", path := "", target_triple := "",
          stdlib := "" }

end CompilerDetector

namespace CMakeBuilder

/-- `CMakeBuilder::BuildConfig`. -/
structure BuildConfig where
  build_type : String
  install_prefix : String
  cmake_args : List String
  verbose : Bool
deriving DecidableEq

/-- The default member initializers of `CMakeBuilder::BuildConfig`, used when
`build_package` is called with a defaulted `config` argument. -/
def BuildConfig.default : BuildConfig :=
  { build_type := "Release", install_prefix := "/usr/local", cmake_args := [],
    verbose := false }

/-- `temp_directory_path() / "cpppm_build" / package_name`. -/
def build_dir (env : SysEnv) (package_name : String) : String :=
  env.temp_directory_path ++ "/cpppm_build/" ++ package_name

/-- The CMake configure command assembled by `build_package`, including the
caller's extra `cmake_args`. -/
def configure_cmd (env : SysEnv) (package_name source_dir : String)
    (config : BuildConfig) : Cmd :=
  ["cmake", "-S", source_dir, "-B", build_dir env package_name,
   "-DCMAKE_BUILD_TYPE=" ++ config.build_type,
   "-DCMAKE_INSTALL_PREFIX=" ++ config.install_prefix] ++ config.cmake_args

/-- The CMake build command assembled by `build_package`. -/
def build_cmd (env : SysEnv) (package_name : String) : Cmd :=
  ["cmake", "--build", build_dir env package_name, "--parallel",
   toString env.hardware_concurrency]

/-- The CMake install command assembled by `build_package`. -/
def install_cmd (env : SysEnv) (package_name : String) : Cmd :=
  ["cmake", "--install", build_dir env package_name]

/-- `CMakeBuilder::build_package`.  Returns the C++ return value paired with
the ordered trace of subprocess commands issued.  The whole body sits in a
`try` block whose `catch (const std::exception&)` handler returns 1, so a
collaborator throwing (`.error ()`) yields return value 1 at that point. -/
def build_package (env : SysEnv) (package_name source_dir : String)
    (config : BuildConfig) : Int × List Cmd :=
  match env.create_directories (build_dir env package_name) with
  | .error _ => (1, [])
  | .ok _ =>
    match env.run (configure_cmd env package_name source_dir config) with
    | .error _ => (1, [configure_cmd env package_name source_dir config])
    | .ok configure_result =>
      if configure_result.returncode ≠ 0 then
        (1, [configure_cmd env package_name source_dir config])
      else
        match env.run (build_cmd env package_name) with
        | .error _ =>
          (1, [configure_cmd env package_name source_dir config,
               build_cmd env package_name])
        | .ok build_result =>
          if build_result.returncode ≠ 0 then
            (1, [configure_cmd env package_name source_dir config,
                 build_cmd env package_name])
          else
            match env.run (install_cmd env package_name) with
            | .error _ =>
              (1, [configure_cmd env package_name source_dir config,
                   build_cmd env package_name, install_cmd env package_name])
            | .ok install_result =>
              if install_result.returncode ≠ 0 then
                (1, [configure_cmd env package_name source_dir config,
                     build_cmd env package_name, install_cmd env package_name])
              else
                (0, [configure_cmd env package_name source_dir config,
                     build_cmd env package_name, install_cmd env package_name])

end CMakeBuilder

/-- The values of the preprocessor macros (`__x86_64__`/…, `__linux__`/…,
`NDEBUG`, `__cplusplus`) the translation unit was compiled with: compile-time
configuration of `ABIManager::get_current_abi`. -/
structure HostConfig where
  cpu_arch : String
  os : String
  debug_mode : Bool
  cxx_standard : String
deriving DecidableEq

namespace ABIManager

/-- `ABIManager::ABIInfo`. -/
structure ABIInfo where
  compiler : String
  compiler_version : String
  stdlib : String
  cpu_arch : String
  os : String
  debug_mode : Bool
  cxx_standard : String
deriving DecidableEq

/-- `ABIManager::compiler_type_to_string`. -/
def compiler_type_to_string : CompilerDetector.CompilerType → String
  | .GCC => "gcc"
  | .Clang => "clang"
  | .MSVC => "msvc"
  | .Unknown => "unknown"

/-- `ABIManager::get_current_abi`: detects the compiler and copies in the
macro-determined host facts.  `detect_system_compiler`'s exceptions (if any)
propagate, hence the `Except`. -/
def get_current_abi (env : SysEnv) (host : HostConfig) :
    Except Unit ABIInfo :=
  (CompilerDetector.detect_system_compiler env).map fun ci =>
    { compiler := compiler_type_to_string ci.type,
      compiler_version := ci.version,
      stdlib := ci.stdlib,
      cpu_arch := host.cpu_arch,
      os := host.os,
      debug_mode := host.debug_mode,
      cxx_standard := host.cxx_standard }

end ABIManager

/-- One character of `nlohmann::json`'s string escaping (the subset relevant
to the strings this program serializes). -/
def json_escape_char (c : Char) : String :=
  if c = '"' then "\\\"" else if c = '\\' then "\\\\" else String.singleton c

/-- `nlohmann::json` string escaping. -/
def json_escape (s : String) : String :=
  String.join (s.toList.map json_escape_char)

/-- A JSON string literal. -/
def json_str (s : String) : String := "\"" ++ json_escape s ++ "\""

/-- A JSON boolean literal. -/
def json_bool (b : Bool) : String := if b then "true" else "false"

/-- `nlohmann::json::dump()` of a flat object; `nlohmann::json` stores object
keys sorted, so callers list fields in sorted key order. -/
def json_obj (fields : List (String × String)) : String :=
  "\x7b" ++
    String.intercalate "," (fields.map fun f => json_str f.1 ++ ":" ++ f.2) ++
    "\x7d"

/-- `ABIManager::abi_to_string`: serializes the record to JSON (keys in
`nlohmann`'s sorted order).  It only prints; it compares nothing. -/
def ABIManager.abi_to_string (info : ABIManager.ABIInfo) : String :=
  json_obj [("compiler", json_str info.compiler),
            ("compiler_version", json_str info.compiler_version),
            ("cpu_arch", json_str info.cpu_arch),
            ("cxx_standard", json_str info.cxx_standard),
            ("debug_mode", json_bool info.debug_mode),
            ("os", json_str info.os),
            ("stdlib", json_str info.stdlib)]

/-- `static_cast<int>(CompilerType)`: the underlying enumerator values. -/
def compiler_type_to_int : CompilerDetector.CompilerType → Int
  | .GCC => 0
  | .Clang => 1
  | .MSVC => 2
  | .Unknown => 3

/-- The JSON blob built inside `cpp_detect_compiler` (keys in `nlohmann`'s
sorted order). -/
def compiler_info_json (i : CompilerDetector.CompilerInfo) : String :=
  json_obj [("path", json_str i.path),
            ("stdlib", json_str i.stdlib),
            ("type", toString (compiler_type_to_int i.type)),
            ("version", json_str i.version)]

/-- The identity of a process-wide static buffer returned across the C
boundary; `c_str()` of the two function-local `static std::string`s. -/
inductive BufId
  | compiler_info_buf
  | abi_info_buf
deriving DecidableEq

/-- The contents of the two `static std::string` buffers. -/
structure StaticBuffers where
  compiler_info : String
  abi_info : String
deriving DecidableEq

/-- `cpp_detect_compiler`: detects, serializes into the function-local static
buffer (overwriting whatever it held), and returns a pointer to that same
buffer.  The buffer state threads through explicitly. -/
def cpp_detect_compiler (env : SysEnv) (bufs : StaticBuffers) :
    Except Unit (BufId × StaticBuffers) :=
  (CompilerDetector.detect_system_compiler env).map fun info =>
    (BufId.compiler_info_buf,
     { bufs with compiler_info := compiler_info_json info })

/-- `cpp_get_abi_info`: same pattern with the second static buffer. -/
def cpp_get_abi_info (env : SysEnv) (host : HostConfig)
    (bufs : StaticBuffers) : Except Unit (BufId × StaticBuffers) :=
  (ABIManager.get_current_abi env host).map fun info =>
    (BufId.abi_info_buf,
     { bufs with abi_info := ABIManager.abi_to_string info })

/-- `cpp_build_cmake`: builds the package name from the raw pointer and length,
hard-codes the cache source directory, and unconditionally delegates to
`CMakeBuilder::build_package` with a defaulted config — no cache lookup of any
kind precedes the build. -/
def cpp_build_cmake (env : SysEnv) (package_name : String) : Int × List Cmd :=
  CMakeBuilder.build_package env package_name
    ("/tmp/cpppm_cache/" ++ package_name) CMakeBuilder.BuildConfig.default

end Cpkg

namespace CpkgSpec

/-- Modelled from the spec: the `family` enum of `ToolchainDescriptor`
(`enum{GCC,Clang,MSVC,Unknown}`); no code for the designed subsystem exists
under `src/`. -/
inductive Family
  | GCC
  | Clang
  | MSVC
  | Unknown
deriving DecidableEq, Repr

/-- Modelled from the spec: the `stdlib` enum of `ToolchainDescriptor`. -/
inductive StdlibImpl
  | libstdcxx
  | libcxx
  | msvc_stl
  | unknown
deriving DecidableEq, Repr

/-- Modelled from the spec: the `arch` enum of `ToolchainDescriptor`. -/
inductive Arch
  | x86_64
  | aarch64
  | arm
  | unknown
deriving DecidableEq, Repr

/-- Modelled from the spec: the `os` enum of `ToolchainDescriptor`. -/
inductive HostOS
  | linux
  | macos
  | windows
  | unknown
deriving DecidableEq, Repr

/-- Modelled from the spec: the `lang_standard` enum (`98,11,14,17,20,23`). -/
inductive LangStd
  | cpp98
  | cpp11
  | cpp14
  | cpp17
  | cpp20
  | cpp23
deriving DecidableEq

/-- Numeric rank of a language standard, for the `<` comparison in
`satisfies`. -/
def LangStd.rank : LangStd → Nat
  | .cpp98 => 0
  | .cpp11 => 1
  | .cpp14 => 2
  | .cpp17 => 3
  | .cpp20 => 4
  | .cpp23 => 5

/-- Modelled from the spec: the threading-model enum of `BuildRequirement`
(`enum{none,posix,win32}`). -/
inductive ThreadingModel
  | noThreads
  | posix
  | win32
deriving DecidableEq, Repr

/-- Modelled from the spec: `ToolchainDescriptor`, an immutable value type.
The spec's `satisfies` consults "ABI-sensitive feature flags (e.g. exceptions,
RTTI, threading model)", so the descriptor carries the facts those
requirements are checked against. -/
structure ToolchainDescriptor where
  family : Family
  version : Nat × Nat × Nat
  stdlib : StdlibImpl
  arch : Arch
  os : HostOS
  debug : Bool
  lang_standard : LangStd
  has_exceptions : Bool
  has_rtti : Bool
  threading : ThreadingModel
deriving DecidableEq

/-- Modelled from the spec: `BuildRequirement`; empty `allowed_families`
means "any family accepted". -/
structure BuildRequirement where
  min_standard : LangStd
  allowed_families : List Family
  needs_exceptions : Bool
  needs_rtti : Bool
  threading : ThreadingModel
deriving DecidableEq

/-- Modelled from the spec: `CompatibilityEngine.satisfies`, a pure decision
function that fails closed: false if `family = Unknown`, if the language
standard is below `min_standard`, if `allowed_families` is non-empty and
excludes the family, or if any feature requirement is unmet (a requirement of
`noThreads` constrains nothing). -/
def satisfies (d : ToolchainDescriptor) (r : BuildRequirement) : Bool :=
  d.family ≠ Family.Unknown &&
  r.min_standard.rank ≤ d.lang_standard.rank &&
  (r.allowed_families.isEmpty || r.allowed_families.contains d.family) &&
  (!r.needs_exceptions || d.has_exceptions) &&
  (!r.needs_rtti || d.has_rtti) &&
  (r.threading == ThreadingModel.noThreads || r.threading == d.threading)

/-- Modelled from the spec: the canonical serialization order of
`CacheKeyDeriver` sorts the build-option list lexicographically before
hashing. -/
def canonical_options (options : List String) : List String :=
  options.mergeSort

/-- Modelled from the spec: a fixed, documented field order for the
descriptor's canonical serialization. -/
def serialize_descriptor (d : ToolchainDescriptor) : String :=
  String.intercalate "|"
    [reprStr d.family, toString d.version.1,
     toString d.version.2.1, toString d.version.2.2,
     reprStr d.stdlib, reprStr d.arch, reprStr d.os,
     toString d.debug, toString d.lang_standard.rank,
     toString d.has_exceptions, toString d.has_rtti, reprStr d.threading]

/-- Modelled from the spec: the canonical serialization hashed by `derive`:
package identity, version, descriptor and the sorted option list, in a fixed
field order. -/
def cache_key_input (package_id version : String) (d : ToolchainDescriptor)
    (options : List String) : String :=
  String.intercalate "\x00"
    ([package_id, version, serialize_descriptor d] ++ canonical_options options)

/-- Modelled from the spec: a deterministic ≥128-bit digest of a byte string
(standing in for the SHA-2-family function the spec names; the claims proved
here concern determinism and canonicalization, not collision resistance). -/
def digest128 (s : String) : Nat :=
  s.toList.foldl (fun h c => (h * 1099511628211 + c.toNat) % 2 ^ 128)
    14695981039346656037

/-- Modelled from the spec: `CacheKeyDeriver.derive`, a total deterministic
hash of `(package_id, version, descriptor, sorted options)`. -/
def derive (package_id version : String) (d : ToolchainDescriptor)
    (options : List String) : Nat :=
  digest128 (cache_key_input package_id version d options)

/-- Modelled from the spec: the status of a `CacheEntry`
(`enum{Building,Ready,Failed}`). -/
inductive EntryStatus
  | Building
  | Ready
  | Failed
deriving DecidableEq

/-- Modelled from the spec: the `ArtifactCache` index, keyed by cache key.
Only the per-key status matters to the at-most-one-build claim. -/
def Cache := String → Option EntryStatus

/-- Modelled from the spec: the outcome of `begin_build` — a `BuildTicket`
(carrying its key) or `AlreadyInFlight`. -/
inductive BeginResult
  | ticket (key : String)
  | alreadyInFlight
deriving DecidableEq

/-- Modelled from the spec: `ArtifactCache.begin_build`, a single atomic
check-and-set: if a `Building` or `Ready` entry exists for the key it returns
`AlreadyInFlight` and leaves the cache unchanged; otherwise (no entry, or a
`Failed` entry eligible for retry) it records a `Building` entry and hands the
caller the ticket. -/
def begin_build (k : String) (c : Cache) : BeginResult × Cache :=
  match c k with
  | some EntryStatus.Building => (BeginResult.alreadyInFlight, c)
  | some EntryStatus.Ready => (BeginResult.alreadyInFlight, c)
  | _ =>
    (BeginResult.ticket k,
     fun k' => if k' = k then some EntryStatus.Building else c k')

/-- N callers racing on `begin_build(k)`.  The spec requires `begin_build` to
be one atomic check-and-set, so any concurrent execution of N calls is some
sequence of N atomic transitions; the callers being symmetric, that sequence
is this one.  Returns the N results in order plus the final cache. -/
def run_begins (k : String) : Nat → Cache → List BeginResult × Cache
  | 0, c => ([], c)
  | n + 1, c =>
    match begin_build k c with
    | (r, c') =>
      match run_begins k n c' with
      | (rs, c'') => (r :: rs, c'')

end CpkgSpec

namespace Cpkg

/-! ## Theorems about the C++ code -/

/-- A host on which no compiler probe can even spawn: every subprocess throws. -/
def envAllFail : SysEnv :=
  { run := fun _ => .error (),
    create_directories := fun _ => .ok (),
    temp_directory_path := "/tmp",
    hardware_concurrency := 1 }

/-- A host on which every subprocess exits 0 with a GCC-style banner. -/
def envAllOk : SysEnv :=
  { run := fun _ => .ok { returncode := 0, cout := "g++ (GNU) 13.2.0", cerr := "" },
    create_directories := fun _ => .ok (),
    temp_directory_path := "/tmp",
    hardware_concurrency := 4 }

/-- Helper: if `findIdx?` finds its first hit at `i`, then `take i` is exactly
`takeWhile` of the negated predicate. -/
theorem take_findIdx?_eq_takeWhile {α : Type} (p : α → Bool) :
    ∀ (l : List α) (i : Nat), l.findIdx? p = some i →
      l.take i = l.takeWhile (fun c => !p c) := by
  intro l
  induction l with
  | nil => intro i h; simp at h
  | cons x xs ih =>
    intro i h
    rw [List.findIdx?_cons] at h
    by_cases hx : p x
    · simp [hx] at h
      subst h
      simp [List.takeWhile_cons, hx]
    · simp [hx, List.findIdx?_succ] at h
      obtain ⟨j, hj, rfl⟩ := h
      simp [List.takeWhile_cons, hx, ih j hj]

/-- C3: `extract_version_from_output` returns the characters of its input up
to (and excluding) the first space, and `"unknown"` when no space occurs. -/
theorem extract_version_first_token (output : String) :
    CompilerDetector.extract_version_from_output output =
      if output.toList.any (fun c => c = ' ')
      then String.mk (output.toList.takeWhile (fun c => c ≠ ' '))
      else "unknown" := by
  unfold CompilerDetector.extract_version_from_output
  rcases h : output.toList.findIdx? (fun c => c = ' ') with _ | pos
  · rw [List.findIdx?_eq_none_iff] at h
    have hany : output.toList.any (fun c => c = ' ') = false := by
      rw [List.any_eq_false]
      intro c hc
      simpa using h c hc
    rw [hany]
    simp
  · have hmem : output.toList.any (fun c => c = ' ') = true := by
      by_contra hfalse
      rw [Bool.not_eq_true, List.any_eq_false] at hfalse
      have hnone : output.toList.findIdx? (fun c => c = ' ') = none :=
        List.findIdx?_eq_none_iff.mpr fun c hc => by simpa using hfalse c hc
      rw [hnone] at h
      exact Option.noConfusion h
    rw [hmem]
    simp only [if_true]
    rw [take_findIdx?_eq_takeWhile (fun c => c = ' ') output.toList pos h]
    have hfun : (fun c : Char => decide (c ≠ ' ')) = fun c => !decide (c = ' ') := by
      funext c
      simp [decide_not]
    rw [hfun]

/-- C4: whenever `detect_system_compiler` reports `Unknown`, the `version`,
`path` and `stdlib` fields still hold their default-constructed empty
strings. -/
theorem detect_unknown_fields_empty (env : SysEnv)
    (info : CompilerDetector.CompilerInfo)
    (h : CompilerDetector.detect_system_compiler env = .ok info)
    (hty : info.type = CompilerDetector.CompilerType.Unknown) :
    info.version = "" ∧ info.path = "" ∧ info.stdlib = "" := by
  unfold CompilerDetector.detect_system_compiler at h
  split at h
  · unfold CompilerDetector.get_gcc_version at h
    rcases hr : env.run ["g++", "--version"] with _ | r <;> rw [hr] at h
    · simp [Except.map] at h
    · simp only [Except.map, Except.ok.injEq] at h
      rw [← h] at hty
      simp at hty
  · split at h
    · unfold CompilerDetector.get_clang_version at h
      rcases hr : env.run ["clang++", "--version"] with _ | r <;> rw [hr] at h
      · simp [Except.map] at h
      · simp only [Except.map, Except.ok.injEq] at h
        rw [← h] at hty
        simp at hty
    · split at h
      · unfold CompilerDetector.get_msvc_version at h
        rcases hr : env.run ["cl.exe", "/?"] with _ | r <;> rw [hr] at h
        · simp [Except.map] at h
        · simp only [Except.map, Except.ok.injEq] at h
          rw [← h] at hty
          simp at hty
      · simp only [Except.ok.injEq] at h
        rw [← h]
        exact ⟨rfl, rfl, rfl⟩

/-- Witness for C4: on a host where every probe throws, detection yields
`Unknown` with all string fields empty. -/
theorem detect_unknown_fields_empty_witness :
    ({ type := .Unknown, version := "", path := "", target_triple := "",
       stdlib := "" } : CompilerDetector.CompilerInfo).version = "" ∧
    ({ type := .Unknown, version := "", path := "", target_triple := "",
       stdlib := "" } : CompilerDetector.CompilerInfo).path = "" ∧
    ({ type := .Unknown, version := "", path := "", target_triple := "",
       stdlib := "" } : CompilerDetector.CompilerInfo).stdlib = "" :=
  detect_unknown_fields_empty envAllFail _ rfl rfl

/-- C9: the probes run in the fixed order `g++`, `clang++`, `cl.exe` and the
first probe exiting 0 wins; in particular a host where `g++` answers yields
GCC with `libstdc++` no matter what `clang++` would say, and a host where no
probe answers yields the `Unknown` record. -/
theorem detect_probe_order (env : SysEnv) :
    (CompilerDetector.test_compiler env "g++" = true →
      ∃ i, CompilerDetector.detect_system_compiler env = .ok i ∧
        i.type = CompilerDetector.CompilerType.GCC ∧ i.stdlib = "libstdc++") ∧
    (CompilerDetector.test_compiler env "g++" = false →
      CompilerDetector.test_compiler env "clang++" = true →
      ∃ i, CompilerDetector.detect_system_compiler env = .ok i ∧
        i.type = CompilerDetector.CompilerType.Clang ∧ i.stdlib = "libc++") ∧
    (CompilerDetector.test_compiler env "g++" = false →
      CompilerDetector.test_compiler env "clang++" = false →
      CompilerDetector.test_compiler env "cl.exe" = true →
      ∀ i, CompilerDetector.detect_system_compiler env = .ok i →
        i.type = CompilerDetector.CompilerType.MSVC ∧ i.stdlib = "msvc_stl") ∧
    (CompilerDetector.test_compiler env "g++" = false →
      CompilerDetector.test_compiler env "clang++" = false →
      CompilerDetector.test_compiler env "cl.exe" = false →
      CompilerDetector.detect_system_compiler env =
        .ok { type := .Unknown, version := "", path := "", target_triple := "",
              stdlib := "" }) := by
  refine ⟨?_, ?_, ?_, ?_⟩
  · intro hg
    have hr : ∃ r, env.run ["g++", "--version"] = .ok r := by
      unfold CompilerDetector.test_compiler at hg
      rcases h : env.run ["g++", "--version"] with _ | r
      · rw [h] at hg; simp at hg
      · exact ⟨r, rfl⟩
    obtain ⟨r, hr⟩ := hr
    refine ⟨{ type := .GCC,
              version := CompilerDetector.extract_version_from_output r.cout,
              path := CompilerDetector.find_executable "g++",
              target_triple := "", stdlib := "libstdc++" }, ?_, rfl, rfl⟩
    unfold CompilerDetector.detect_system_compiler CompilerDetector.get_gcc_version
    rw [if_pos hg, hr]
    rfl
  · intro hg hc
    have hr : ∃ r, env.run ["clang++", "--version"] = .ok r := by
      unfold CompilerDetector.test_compiler at hc
      rcases h : env.run ["clang++", "--version"] with _ | r
      · rw [h] at hc; simp at hc
      · exact ⟨r, rfl⟩
    obtain ⟨r, hr⟩ := hr
    refine ⟨{ type := .Clang,
              version := CompilerDetector.extract_version_from_output r.cout,
              path := CompilerDetector.find_executable "clang++",
              target_triple := "", stdlib := "libc++" }, ?_, rfl, rfl⟩
    unfold CompilerDetector.detect_system_compiler CompilerDetector.get_clang_version
    rw [if_neg (by simp [hg]), if_pos hc, hr]
    rfl
  · intro hg hc hm i hi
    unfold CompilerDetector.detect_system_compiler
      CompilerDetector.get_msvc_version at hi
    rw [if_neg (by simp [hg]), if_neg (by simp [hc]), if_pos hm] at hi
    rcases h : env.run ["cl.exe", "/?"] with _ | r <;> rw [h] at hi
    · simp [Except.map] at hi
    · simp only [Except.map, Except.ok.injEq] at hi
      rw [← hi]
      exact ⟨rfl, rfl⟩
  · intro hg hc hm
    unfold CompilerDetector.detect_system_compiler
    rw [if_neg (by simp [hg]), if_neg (by simp [hc]), if_neg (by simp [hm])]

/-- Witness for C9: on a host where every `--version` probe exits 0 (so both
`g++` and `clang++` respond successfully), detection reports GCC with
`libstdc++`, never Clang. -/
theorem detect_probe_order_witness :
    ∃ i, CompilerDetector.detect_system_compiler envAllOk = .ok i ∧
      i.type = CompilerDetector.CompilerType.GCC ∧ i.stdlib = "libstdc++" :=
  (detect_probe_order envAllOk).1 rfl

/-- C1: under a collaborator that spawns all processes, `build_package`
issues exactly the configure command, then the build command, then the
install command, stopping (with return value 1) right after the first one
that exits nonzero, and returns 0 exactly when all three exit 0. -/
theorem build_package_step_order (env : SysEnv)
    (package_name source_dir : String) (config : CMakeBuilder.BuildConfig)
    (rc rb ri : RunResult)
    (hmk : env.create_directories (CMakeBuilder.build_dir env package_name) =
      .ok ())
    (hc : env.run (CMakeBuilder.configure_cmd env package_name source_dir
      config) = .ok rc)
    (hb : env.run (CMakeBuilder.build_cmd env package_name) = .ok rb)
    (hi : env.run (CMakeBuilder.install_cmd env package_name) = .ok ri) :
    CMakeBuilder.build_package env package_name source_dir config =
      if rc.returncode ≠ 0 then
        (1, [CMakeBuilder.configure_cmd env package_name source_dir config])
      else if rb.returncode ≠ 0 then
        (1, [CMakeBuilder.configure_cmd env package_name source_dir config,
             CMakeBuilder.build_cmd env package_name])
      else if ri.returncode ≠ 0 then
        (1, [CMakeBuilder.configure_cmd env package_name source_dir config,
             CMakeBuilder.build_cmd env package_name,
             CMakeBuilder.install_cmd env package_name])
      else
        (0, [CMakeBuilder.configure_cmd env package_name source_dir config,
             CMakeBuilder.build_cmd env package_name,
             CMakeBuilder.install_cmd env package_name]) := by
  unfold CMakeBuilder.build_package
  rw [hmk, hc, hb, hi]

/-- Witness for C1: on a host where every subprocess exits 0, the build
returns 0 after issuing configure, build, install in order. -/
theorem build_package_step_order_witness :
    CMakeBuilder.build_package envAllOk "pkg" "/src/pkg"
        CMakeBuilder.BuildConfig.default =
      (0, [CMakeBuilder.configure_cmd envAllOk "pkg" "/src/pkg"
             CMakeBuilder.BuildConfig.default,
           CMakeBuilder.build_cmd envAllOk "pkg",
           CMakeBuilder.install_cmd envAllOk "pkg"]) := by
  have h := build_package_step_order envAllOk "pkg" "/src/pkg"
    CMakeBuilder.BuildConfig.default
    { returncode := 0, cout := "g++ (GNU) 13.2.0", cerr := "" }
    { returncode := 0, cout := "g++ (GNU) 13.2.0", cerr := "" }
    { returncode := 0, cout := "g++ (GNU) 13.2.0", cerr := "" }
    rfl rfl rfl rfl
  simpa using h

/-- C10: `build_package` always returns 0 or 1: every failing step maps to 1
and a thrown `std::exception` is caught by the surrounding handler and also
maps to 1 — nothing else can come back across the boundary. -/
theorem build_package_returns_zero_or_one (env : SysEnv)
    (package_name source_dir : String) (config : CMakeBuilder.BuildConfig) :
    (CMakeBuilder.build_package env package_name source_dir config).1 = 0 ∨
    (CMakeBuilder.build_package env package_name source_dir config).1 = 1 := by
  unfold CMakeBuilder.build_package
  rcases env.create_directories (CMakeBuilder.build_dir env package_name) with
    _ | _
  · simp
  rcases env.run (CMakeBuilder.configure_cmd env package_name source_dir
    config) with _ | rc
  · simp
  by_cases h1 : rc.returncode = 0
  case neg => simp [h1]
  rcases env.run (CMakeBuilder.build_cmd env package_name) with _ | rb
  · simp [h1]
  by_cases h2 : rb.returncode = 0
  case neg => simp [h1, h2]
  rcases env.run (CMakeBuilder.install_cmd env package_name) with _ | ri
  · simp [h1, h2]
  by_cases h3 : ri.returncode = 0 <;> simp [h1, h2, h3]

/-- C2: `cpp_build_cmake` is nothing but an unconditional fresh delegation to
`build_package` on the hard-coded cache path, and every subprocess command it
ever issues is one of the three CMake commands, starting with configure — in
particular no cache-lookup or ABI-comparison step precedes the build. -/
theorem cpp_build_cmake_fresh (env : SysEnv) (package_name : String) :
    cpp_build_cmake env package_name =
      CMakeBuilder.build_package env package_name
        ("/tmp/cpppm_cache/" ++ package_name)
        CMakeBuilder.BuildConfig.default ∧
    ∃ n, (cpp_build_cmake env package_name).2 =
      [CMakeBuilder.configure_cmd env package_name
         ("/tmp/cpppm_cache/" ++ package_name) CMakeBuilder.BuildConfig.default,
       CMakeBuilder.build_cmd env package_name,
       CMakeBuilder.install_cmd env package_name].take n := by
  refine ⟨rfl, ?_⟩
  unfold cpp_build_cmake CMakeBuilder.build_package
  rcases env.create_directories (CMakeBuilder.build_dir env package_name) with
    _ | _
  · exact ⟨0, rfl⟩
  rcases env.run (CMakeBuilder.configure_cmd env package_name
    ("/tmp/cpppm_cache/" ++ package_name) CMakeBuilder.BuildConfig.default)
    with _ | rc
  · exact ⟨1, rfl⟩
  by_cases h1 : rc.returncode = 0
  case neg => exact ⟨1, by simp [h1]⟩
  rcases env.run (CMakeBuilder.build_cmd env package_name) with _ | rb
  · exact ⟨2, by simp [h1]⟩
  by_cases h2 : rb.returncode = 0
  case neg => exact ⟨2, by simp [h1, h2]⟩
  rcases env.run (CMakeBuilder.install_cmd env package_name) with _ | ri
  · exact ⟨3, by simp [h1, h2]⟩
  by_cases h3 : ri.returncode = 0
  case neg => exact ⟨3, by simp [h1, h2, h3]⟩
  exact ⟨3, by simp [h1, h2, h3]⟩

/-- The `ABIInfo` record `get_current_abi` assembles from a detected
compiler and the host's macro facts (named for readability of the statements
below). -/
def current_abi_of (i : CompilerDetector.CompilerInfo) (host : HostConfig) :
    ABIManager.ABIInfo :=
  { compiler := ABIManager.compiler_type_to_string i.type,
    compiler_version := i.version, stdlib := i.stdlib,
    cpu_arch := host.cpu_arch, os := host.os, debug_mode := host.debug_mode,
    cxx_standard := host.cxx_standard }

/-- C5: both C-boundary query functions hand back the same process-wide
buffer on every call, and each call overwrites that buffer with the freshly
serialized JSON — the content handed out by the previous call is replaced,
not independently owned.  (Each function touches only its own buffer.) -/
theorem static_buffers_overwritten (env₁ env₂ : SysEnv)
    (host₁ host₂ : HostConfig) (bufs : StaticBuffers)
    (i₁ i₂ : CompilerDetector.CompilerInfo)
    (h₁ : CompilerDetector.detect_system_compiler env₁ = .ok i₁)
    (h₂ : CompilerDetector.detect_system_compiler env₂ = .ok i₂) :
    (∃ s₁ s₂,
      cpp_detect_compiler env₁ bufs = .ok (BufId.compiler_info_buf, s₁) ∧
      cpp_detect_compiler env₂ s₁ = .ok (BufId.compiler_info_buf, s₂) ∧
      s₁.compiler_info = compiler_info_json i₁ ∧
      s₂.compiler_info = compiler_info_json i₂ ∧
      s₂.abi_info = s₁.abi_info) ∧
    (∃ t₁ t₂,
      cpp_get_abi_info env₁ host₁ bufs = .ok (BufId.abi_info_buf, t₁) ∧
      cpp_get_abi_info env₂ host₂ t₁ = .ok (BufId.abi_info_buf, t₂) ∧
      t₁.abi_info = ABIManager.abi_to_string (current_abi_of i₁ host₁) ∧
      t₂.abi_info = ABIManager.abi_to_string (current_abi_of i₂ host₂) ∧
      t₂.compiler_info = t₁.compiler_info) := by
  constructor
  · refine ⟨{ bufs with compiler_info := compiler_info_json i₁ },
      { bufs with compiler_info := compiler_info_json i₂ }, ?_, ?_, rfl, rfl,
      rfl⟩
    · unfold cpp_detect_compiler
      rw [h₁]
      rfl
    · unfold cpp_detect_compiler
      rw [h₂]
      rfl
  · refine ⟨{ bufs with
        abi_info := ABIManager.abi_to_string (current_abi_of i₁ host₁) },
      { bufs with
        abi_info := ABIManager.abi_to_string (current_abi_of i₂ host₂) },
      ?_, ?_, rfl, rfl, rfl⟩
    · unfold cpp_get_abi_info ABIManager.get_current_abi
      rw [h₁]
      rfl
    · unfold cpp_get_abi_info ABIManager.get_current_abi
      rw [h₂]
      rfl

/-- The compile-time host configuration of a release Linux x86-64 build with
C++17. -/
def host0 : HostConfig :=
  { cpu_arch := "x86_64", os := "linux", debug_mode := false,
    cxx_standard := "c++17" }

/-- The `Unknown` record produced when no probe answers. -/
def unknown_info : CompilerDetector.CompilerInfo :=
  { type := .Unknown, version := "", path := "", target_triple := "",
    stdlib := "" }

/-- Witness for C5: two back-to-back calls of each query function on a host
with no compiler, starting from empty buffers. -/
theorem static_buffers_overwritten_witness :
    (∃ s₁ s₂,
      cpp_detect_compiler envAllFail { compiler_info := "", abi_info := "" } =
        .ok (BufId.compiler_info_buf, s₁) ∧
      cpp_detect_compiler envAllFail s₁ = .ok (BufId.compiler_info_buf, s₂) ∧
      s₁.compiler_info = compiler_info_json unknown_info ∧
      s₂.compiler_info = compiler_info_json unknown_info ∧
      s₂.abi_info = s₁.abi_info) ∧
    (∃ t₁ t₂,
      cpp_get_abi_info envAllFail host0 { compiler_info := "", abi_info := "" } =
        .ok (BufId.abi_info_buf, t₁) ∧
      cpp_get_abi_info envAllFail host0 t₁ = .ok (BufId.abi_info_buf, t₂) ∧
      t₁.abi_info = ABIManager.abi_to_string
        (current_abi_of unknown_info host0) ∧
      t₂.abi_info = ABIManager.abi_to_string
        (current_abi_of unknown_info host0) ∧
      t₂.compiler_info = t₁.compiler_info) :=
  static_buffers_overwritten envAllFail envAllFail host0 host0
    { compiler_info := "", abi_info := "" } unknown_info unknown_info rfl rfl

end Cpkg

namespace CpkgSpec

/-! ## Theorems about the spec-modelled subsystem -/

/-- C6: `satisfies` fails closed on every one of the spec's reject
conditions. -/
theorem satisfies_fails_closed (d : ToolchainDescriptor)
    (r : BuildRequirement)
    (h : d.family = Family.Unknown ∨
         d.lang_standard.rank < r.min_standard.rank ∨
         (r.allowed_families ≠ [] ∧ d.family ∉ r.allowed_families) ∨
         (r.needs_exceptions = true ∧ d.has_exceptions = false) ∨
         (r.needs_rtti = true ∧ d.has_rtti = false)) :
    satisfies d r = false := by
  unfold satisfies
  rcases h with h | h | ⟨h1, h2⟩ | ⟨h1, h2⟩ | ⟨h1, h2⟩
  · simp [h]
  · simp [Nat.not_le.mpr h]
  · simp [h1, h2, List.isEmpty_iff]
  · simp [h1, h2]
  · simp [h1, h2]

/-- A descriptor whose probe failed: `Unknown` everything. -/
def unknownDescriptor : ToolchainDescriptor :=
  { family := Family.Unknown, version := (0, 0, 0),
    stdlib := StdlibImpl.unknown, arch := Arch.unknown, os := HostOS.unknown,
    debug := false, lang_standard := LangStd.cpp98, has_exceptions := true,
    has_rtti := true, threading := ThreadingModel.posix }

/-- An unconstrained requirement. -/
def anyRequirement : BuildRequirement :=
  { min_standard := LangStd.cpp98, allowed_families := [],
    needs_exceptions := false, needs_rtti := false,
    threading := ThreadingModel.noThreads }

/-- Witness for C6: even against the weakest possible requirement, an
`Unknown`-family descriptor is rejected. -/
theorem satisfies_fails_closed_witness :
    satisfies unknownDescriptor anyRequirement = false :=
  satisfies_fails_closed unknownDescriptor anyRequirement (Or.inl rfl)

/-- Helper: `mergeSort` with the lexicographic order on strings is constant
on permutation classes. -/
theorem mergeSort_congr_perm {l₁ l₂ : List String} (h : l₁.Perm l₂) :
    l₁.mergeSort = l₂.mergeSort :=
  List.eq_of_perm_of_sorted
    ((List.mergeSort_perm l₁ _).trans (h.trans (List.mergeSort_perm l₂ _).symm))
    (List.sorted_mergeSort' _) (List.sorted_mergeSort' _)

/-- C7: `derive` is a pure function of its logical inputs — permuting the
option list never changes the derived cache key. -/
theorem derive_perm_invariant (package_id version : String)
    (d : ToolchainDescriptor) (o₁ o₂ : List String) (h : o₁.Perm o₂) :
    derive package_id version d o₁ = derive package_id version d o₂ := by
  unfold derive cache_key_input canonical_options
  rw [mergeSort_congr_perm h]

/-- Witness for C7: the two orderings of a two-option set get the same key. -/
theorem derive_perm_invariant_witness :
    derive "fmt" "10.1.1" unknownDescriptor ["-DB=2", "-DA=1"] =
      derive "fmt" "10.1.1" unknownDescriptor ["-DA=1", "-DB=2"] :=
  derive_perm_invariant "fmt" "10.1.1" unknownDescriptor _ _
    (List.Perm.swap "-DA=1" "-DB=2" [])

/-- Helper: `begin_build` on a key already `Building` reports
`AlreadyInFlight` and changes nothing. -/
theorem begin_build_building (k : String) (c : Cache)
    (h : c k = some EntryStatus.Building) :
    begin_build k c = (BeginResult.alreadyInFlight, c) := by
  unfold begin_build
  rw [h]

/-- Helper: once the key is `Building`, any number of further `begin_build`
calls all report `AlreadyInFlight` and leave the cache alone. -/
theorem run_begins_building (k : String) (n : Nat) (c : Cache)
    (h : c k = some EntryStatus.Building) :
    run_begins k n c = (List.replicate n BeginResult.alreadyInFlight, c) := by
  induction n with
  | zero => simp [run_begins]
  | succ m ih =>
    simp [run_begins, begin_build_building k c h, ih, List.replicate_succ]

/-- C8: from a cache with no `Building` or `Ready` entry for `k`, any
sequence of N ≥ 1 atomic `begin_build(k)` transitions hands out exactly one
`BuildTicket` and N−1 `AlreadyInFlight` answers. -/
theorem begin_build_at_most_one (k : String) (c : Cache) (N : Nat)
    (hN : 1 ≤ N)
    (hb : c k ≠ some EntryStatus.Building)
    (hr : c k ≠ some EntryStatus.Ready) :
    (run_begins k N c).1.count (BeginResult.ticket k) = 1 ∧
    (run_begins k N c).1.count BeginResult.alreadyInFlight = N - 1 := by
  obtain ⟨n, rfl⟩ : ∃ n, N = n + 1 := ⟨N - 1, by omega⟩
  have h1 : begin_build k c =
      (BeginResult.ticket k,
       fun k' => if k' = k then some EntryStatus.Building else c k') := by
    unfold begin_build
    rcases hck : c k with _ | st
    · rfl
    · cases st
      · exact absurd hck hb
      · exact absurd hck hr
      · rfl
  have h2 : ((fun k' => if k' = k then some EntryStatus.Building else c k') :
      Cache) k = some EntryStatus.Building := by simp
  have h4 := run_begins_building k n
    (fun k' => if k' = k then some EntryStatus.Building else c k') h2
  have h3 : run_begins k (n + 1) c =
      (BeginResult.ticket k :: List.replicate n BeginResult.alreadyInFlight,
       fun k' => if k' = k then some EntryStatus.Building else c k') := by
    simp [run_begins, h1, h4]
  rw [h3]
  constructor
  · simp [List.count_cons, List.count_replicate]
  · simp [List.count_cons, List.count_replicate]

/-- Witness for C8: three racing callers on an empty cache — one ticket, two
`AlreadyInFlight`. -/
theorem begin_build_at_most_one_witness :
    (run_begins "abi-key" 3 (fun _ => none)).1.count
        (BeginResult.ticket "abi-key") = 1 ∧
    (run_begins "abi-key" 3 (fun _ => none)).1.count
        BeginResult.alreadyInFlight = 3 - 1 :=
  begin_build_at_most_one "abi-key" (fun _ => none) 3 (by omega)
    (by simp) (by simp)

end CpkgSpec
